import Mathlib

/-!
Verification of the IREE CMake rule generator
(`build_tools/python/e2e_test_artifacts/cmake_generator/iree_rule_generator.py`)
and of the benchmark command construction in
(`runtime/bindings/python/iree/runtime/benchmark.py`)
as a shallow embedding in Lean 4.

Python machine-level details (pathlib paths, subprocess I/O) are embedded as
`String` values and pure command lists; fallible code returns `Except String`.
-/

namespace Iree

/-! ## Data model (`e2e_test_framework.definitions`)

The definition modules (`common_definitions`, `iree_definitions`,
`model_rule_generator`) are external to the two embedded source files; the
generator only reads the fields modelled below, exactly as it accesses them. -/

/-- `common_definitions.ModelSourceType`: either a pre-exported format requiring
an import step (tflite / tf) or a model already in the target Linalg dialect. -/
inductive ModelSourceType where
  | EXPORTED_LINALG_MLIR
  | EXPORTED_TFLITE
  | EXPORTED_TF
  deriving DecidableEq, Repr

/-- `common_definitions.Model`: fields read by the generator. -/
structure Model where
  id : String
  name : String
  source_type : ModelSourceType
  entry_function : String
  deriving DecidableEq, Repr

/-- Dialect tag carried by an imported model; the generator reads `.value`. -/
structure DialectType where
  value : String
  deriving DecidableEq, Repr

/-- `iree_definitions.ImportedModel`: wraps a `Model` plus its dialect. -/
structure ImportedModel where
  model : Model
  dialect_type : DialectType
  deriving DecidableEq, Repr

/-- Target backend enum member; the generator reads `.value`. -/
structure TargetBackend where
  value : String
  deriving DecidableEq, Repr

/-- `iree_definitions.TargetABI` enum member; the generator reads `.value`
and compares against `LINUX_GNU`. -/
structure TargetABI where
  value : String
  deriving DecidableEq, Repr

def TargetABI.LINUX_GNU : TargetABI := ⟨"linux-gnu"⟩

/-- Architecture descriptor: `architecture` and `microarchitecture` strings. -/
structure ArchitectureInfo where
  architecture : String
  microarchitecture : String
  deriving DecidableEq, Repr

/-- `iree_definitions.CompileTarget`. -/
structure CompileTarget where
  target_backend : TargetBackend
  target_architecture : ArchitectureInfo
  target_abi : TargetABI
  deriving DecidableEq, Repr

/-- `iree_definitions.CompileConfig`. -/
structure CompileConfig where
  id : String
  compile_targets : List CompileTarget
  extra_flags : List String
  tags : List String
  deriving DecidableEq, Repr

/-- `iree_definitions.ModuleGenerationConfig`: one imported model paired with
one compile config. -/
structure ModuleGenerationConfig where
  imported_model : ImportedModel
  compile_config : CompileConfig
  deriving DecidableEq, Repr

/-- `model_rule_generator.ModelRule`: the generator reads `target_name` and
`file_path`. -/
structure ModelRule where
  target_name : String
  file_path : String
  deriving DecidableEq, Repr

/-! ## External rule-text factory and path scheme -/

/-- Modelled from the spec: `cmake_builder.rules` (not under src/) is an opaque
rule-text factory; "The core never inspects or reorders their output; it only
decides which calls to make, with what arguments, and in what order."  Each
emitted rule text is therefore embedded as the record of the call that
produced it, with the exact arguments the generator passes. -/
inductive CMakeRule where
  | importTfliteModel (target_path : String) (source : String)
      (output_mlir_file : String)
  | importTfModel (target_path : String) (source : String)
      (entry_function : String) (output_mlir_file : String)
  | bytecodeModule (target_name : String) (src : String) (module_name : String)
      (flags : List String)
  | addDependencies (target : String) (deps : List String)
  deriving DecidableEq, Repr

def BENCHMARK_IMPORT_MODELS_CMAKE_TARGET : String := "iree-benchmark-import-models"

def BENCHMARK_SUITES_CMAKE_TARGET : String := "iree-benchmark-suites"

def E2E_COMPILE_STATS_SUITES : String := "iree-e2e-compile-stats-suites"

/-- Modelled from the spec: `benchmark_collections.COMPILE_STATS_TAG` (not
under src/), the "compile-stats marker" tag used to classify configs. -/
def COMPILE_STATS_TAG : String := "compile-stats"

/-- Modelled from the spec: `iree_artifacts.get_imported_model_path` (not under
src/) — the canonical output path for an imported model, a pure function of
the `(imported_model, root_path)` pair, derived from the model's identity
fields. -/
def get_imported_model_path (imported_model : ImportedModel)
    (root_path : String) : String :=
  root_path ++ "/" ++ imported_model.model.id ++ "_"
    ++ imported_model.model.name ++ ".mlir"

/-- Modelled from the spec: `iree_artifacts.MODULE_FILENAME` (not under src/),
the fixed module filename constant. -/
def MODULE_FILENAME : String := "module.vmfb"

/-- Modelled from the spec: `iree_artifacts.get_module_dir_path` (not under
src/) — the canonical module directory for a generation config, a pure
function of the `(generation_config, root_path)` pair. -/
def get_module_dir_path (gen_config : ModuleGenerationConfig)
    (root_path : String) : String :=
  root_path ++ "/" ++ gen_config.imported_model.model.id ++ "_"
    ++ gen_config.compile_config.id

/-! ## IreeRuleBuilder -/

/-- `IreeModelImportRule`. -/
structure IreeModelImportRule where
  target_name : String
  output_file_path : String
  cmake_rules : List CMakeRule
  deriving DecidableEq, Repr

/-- `IreeModuleCompileRule`. -/
structure IreeModuleCompileRule where
  target_name : String
  output_module_path : String
  cmake_rules : List CMakeRule
  deriving DecidableEq, Repr

/-- `IreeRuleBuilder.build_target_path`: package-qualified target path. -/
def build_target_path (package_name target_name : String) : String :=
  package_name ++ "_" ++ target_name

/-- Python `str.lower()` as used on the microarchitecture string. -/
def string_lower (s : String) : String :=
  ⟨s.data.map Char.toLower⟩

/-- `IreeRuleBuilder._generate_compile_target_flags`: the architecture-specific
flags, dispatched on the architecture string exactly as the source's
if/elif chain. -/
def generate_compile_target_flags (target : CompileTarget) :
    Except String (List String) :=
  let arch_info := target.target_architecture
  if arch_info.architecture = "x86_64" then
    .ok ["--iree-llvm-target-triple=x86_64-unknown-" ++ target.target_abi.value,
      "--iree-llvm-target-cpu=" ++ string_lower arch_info.microarchitecture]
  else if arch_info.architecture = "riscv_64" then
    .ok ["--iree-llvm-target-triple=riscv64-pc-" ++ target.target_abi.value,
      "--iree-llvm-target-cpu=generic-rv64", "--iree-llvm-target-abi=lp64d",
      "--iree-llvm-target-cpu-features=+m,+a,+f,+d,+zvl512b,+v",
      "--riscv-v-fixed-length-vector-lmul-max=8"]
  else if arch_info.architecture = "riscv_32" then
    .ok ["--iree-llvm-target-triple=riscv32-pc-" ++ target.target_abi.value,
      "--iree-llvm-target-cpu=generic-rv32", "--iree-llvm-target-abi=ilp32",
      "--iree-llvm-target-cpu-features=+m,+a,+f,+zvl512b,+zve32x",
      "--riscv-v-fixed-length-vector-lmul-max=8"]
  else if arch_info.architecture = "adreno" then
    .ok ["--iree-vulkan-target-triple=adreno-unknown-" ++ target.target_abi.value]
  else if arch_info.architecture = "mali" then
    .ok ["--iree-vulkan-target-triple=valhall-unknown-" ++ target.target_abi.value]
  else if arch_info.architecture = "armv8.2-a" then
    .ok ["--iree-llvm-target-triple=aarch64-none-" ++ target.target_abi.value]
  else if arch_info.architecture = "cuda" then
    if target.target_abi ≠ TargetABI.LINUX_GNU then
      .error ("Unsupported target ABI for CUDA backend: `"
        ++ target.target_abi.value ++ "`")
    else
      .ok ["--iree-hal-cuda-llvm-target-arch=sm_80"]
  else if arch_info.architecture = "vmvx" then
    .ok []
  else
    .error ("Unsupported architecture: '" ++ arch_info.architecture ++ "'")

/-- `IreeRuleBuilder._generate_compile_flags`: requires exactly one compile
target, then emits the backend selector and input-dialect selector followed by
the architecture-specific flags. -/
def generate_compile_flags (compile_config : CompileConfig)
    (mlir_dialect_type : String) : Except String (List String) :=
  match compile_config.compile_targets with
  | [compile_target] =>
    match generate_compile_target_flags compile_target with
    | .error e => .error e
    | .ok target_flags =>
      .ok (["--iree-hal-target-backends=" ++ compile_target.target_backend.value,
        "--iree-input-type=" ++ mlir_dialect_type] ++ target_flags)
  | targets =>
    .error ("Only one compile target is supported. Got: "
      ++ (repr targets).pretty)

/-- `IreeRuleBuilder.build_model_import_rule`.  For a Linalg model the source
rule is reused as the import rule and the two paths must agree; tflite and tf
models get a single import rule under target `iree-imported-model-<model.id>`.
(`ModelSourceType` is closed, so the source's trailing unsupported-source
branch is unreachable.) -/
def build_model_import_rule (package_name : String)
    (source_model_rule : ModelRule) (imported_model : ImportedModel)
    (output_file_path : String) : Except String IreeModelImportRule :=
  let model := imported_model.model
  match model.source_type with
  | .EXPORTED_LINALG_MLIR =>
    if source_model_rule.file_path ≠ output_file_path then
      .error ("Separate path for Linalg model isn't supported ('"
        ++ source_model_rule.file_path ++ "' != '" ++ output_file_path ++ "')")
    else
      .ok { target_name := source_model_rule.target_name,
            output_file_path := output_file_path,
            cmake_rules := [] }
  | .EXPORTED_TFLITE =>
    let target_name := "iree-imported-model-" ++ model.id
    .ok { target_name := target_name,
          output_file_path := output_file_path,
          cmake_rules := [CMakeRule.importTfliteModel
            (build_target_path package_name target_name)
            source_model_rule.file_path output_file_path] }
  | .EXPORTED_TF =>
    let target_name := "iree-imported-model-" ++ model.id
    .ok { target_name := target_name,
          output_file_path := output_file_path,
          cmake_rules := [CMakeRule.importTfModel
            (build_target_path package_name target_name)
            source_model_rule.file_path model.entry_function
            output_file_path] }

/-- The module target name `iree-module-<model.id>-<compile_config.id>`. -/
def module_target_name (gen_config : ModuleGenerationConfig) : String :=
  "iree-module-" ++ gen_config.imported_model.model.id ++ "-"
    ++ gen_config.compile_config.id

/-- `IreeRuleBuilder.build_module_compile_rule`: resolves flags, appends
`extra_flags`, and emits a single bytecode-module rule whose source is
the import rule's output file. -/
def build_module_compile_rule (model_import_rule : IreeModelImportRule)
    (imported_model : ImportedModel) (compile_config : CompileConfig)
    (output_file_path : String) : Except String IreeModuleCompileRule :=
  match generate_compile_flags compile_config imported_model.dialect_type.value with
  | .error e => .error e
  | .ok flags =>
    let compile_flags := flags ++ compile_config.extra_flags
    let target_name := "iree-module-" ++ imported_model.model.id ++ "-"
      ++ compile_config.id
    .ok { target_name := target_name,
          output_module_path := output_file_path,
          cmake_rules := [CMakeRule.bytecodeModule target_name
            model_import_rule.output_file_path output_file_path
            compile_flags] }

/-! ## generate_rules -/

/-- One Python-dict assignment `d[k] = v` on an insertion-ordered association
list: replaces the value at an existing key in place (keeping the key's
original position) or appends a new binding at the end. -/
def assocUpdate {α : Type} (l : List (String × α)) (k : String) (v : α) :
    List (String × α) :=
  match l with
  | [] => [(k, v)]
  | (k0, v0) :: rest =>
    if k0 = k then (k0, v) :: rest else (k0, v0) :: assocUpdate rest k v

/-- Python-dict read `d[k]` / `d.get(k)` on an insertion-ordered association
list. -/
def assocFind {α : Type} (l : List (String × α)) (k : String) : Option α :=
  match l with
  | [] => none
  | (k0, v0) :: rest => if k0 = k then some v0 else assocFind rest k

/-- The insertion-ordered dict
`dict((config.imported_model.model.id, config.imported_model) for config in
module_generation_configs)`: keys in first-occurrence order, each key bound to
the last value assigned to it. -/
def all_imported_models
    (module_generation_configs : List ModuleGenerationConfig) :
    List (String × ImportedModel) :=
  module_generation_configs.foldl
    (fun acc config =>
      assocUpdate acc config.imported_model.model.id config.imported_model) []

/-- The first loop of `generate_rules`: for each deduplicated imported model,
look up its source model rule (absence is fatal), build the import rule,
collect its cmake rules in traversal order, and record it in
`model_import_rule_map`. -/
def build_import_rules (package_name root_path : String)
    (model_rule_map : String → Option ModelRule) :
    List (String × ImportedModel) →
      Except String (List CMakeRule × List (String × IreeModelImportRule))
  | [] => .ok ([], [])
  | (model_id, imported_model) :: rest =>
    match model_rule_map imported_model.model.id with
    | none => .error ("Model rule not found for " ++ imported_model.model.id ++ ".")
    | some model_rule =>
      match build_model_import_rule package_name model_rule imported_model
          (get_imported_model_path imported_model root_path) with
      | .error e => .error e
      | .ok model_import_rule =>
        match build_import_rules package_name root_path model_rule_map rest with
        | .error e => .error e
        | .ok (rules, rule_map) =>
          .ok (model_import_rule.cmake_rules ++ rules,
            (model_id, model_import_rule) :: rule_map)

/-- The second loop of `generate_rules`: for each generation config in input
order, build its compile rule from the previously built import rule, collect
the cmake rules, and classify the target name into the ordinary bucket or the
compile-stats bucket by the compile config's tags. -/
def build_compile_rules (root_path : String)
    (model_import_rule_map : List (String × IreeModelImportRule)) :
    List ModuleGenerationConfig →
      Except String (List CMakeRule × List String × List String)
  | [] => .ok ([], [], [])
  | gen_config :: rest =>
    match assocFind model_import_rule_map gen_config.imported_model.model.id with
    | none => .error ("KeyError: " ++ gen_config.imported_model.model.id)
    | some model_import_rule =>
      match build_module_compile_rule model_import_rule
          gen_config.imported_model gen_config.compile_config
          (get_module_dir_path gen_config root_path ++ "/" ++ MODULE_FILENAME) with
      | .error e => .error e
      | .ok module_compile_rule =>
        match build_compile_rules root_path model_import_rule_map rest with
        | .error e => .error e
        | .ok (rules, module_target_names, compile_stats_module_target_names) =>
          if COMPILE_STATS_TAG ∈ gen_config.compile_config.tags then
            .ok (module_compile_rule.cmake_rules ++ rules,
              module_target_names,
              module_compile_rule.target_name :: compile_stats_module_target_names)
          else
            .ok (module_compile_rule.cmake_rules ++ rules,
              module_compile_rule.target_name :: module_target_names,
              compile_stats_module_target_names)

/-- `generate_rules`: deduplicate imported models by model id, build all
the import rules then all the compile rules, and append the up-to-three
aggregate add-dependencies rules, each only when its dependency list is
non-empty. -/
def generate_rules (package_name root_path : String)
    (module_generation_configs : List ModuleGenerationConfig)
    (model_rule_map : String → Option ModelRule) :
    Except String (List CMakeRule) :=
  match build_import_rules package_name root_path model_rule_map
      (all_imported_models module_generation_configs) with
  | .error e => .error e
  | .ok (import_rules, model_import_rule_map) =>
    match build_compile_rules root_path model_import_rule_map
        module_generation_configs with
    | .error e => .error e
    | .ok (compile_rules, module_target_names, compile_stats_module_target_names) =>
      .ok ((import_rules ++ compile_rules)
        ++ (if model_import_rule_map.length > 0 then
              [CMakeRule.addDependencies BENCHMARK_IMPORT_MODELS_CMAKE_TARGET
                (model_import_rule_map.map
                  (fun entry => build_target_path package_name entry.2.target_name))]
            else [])
        ++ (if module_target_names.length > 0 then
              [CMakeRule.addDependencies BENCHMARK_SUITES_CMAKE_TARGET
                (module_target_names.map (build_target_path package_name))]
            else [])
        ++ (if compile_stats_module_target_names.length > 0 then
              [CMakeRule.addDependencies E2E_COMPILE_STATS_SUITES
                (compile_stats_module_target_names.map
                  (build_target_path package_name))]
            else []))

/-- The last imported model in input order whose model id is `mid`. -/
def last_imported_model_for (configs : List ModuleGenerationConfig)
    (mid : String) : Option ImportedModel :=
  configs.foldl
    (fun acc c =>
      if c.imported_model.model.id = mid then some c.imported_model else acc)
    none

/-- The closed set of architecture strings the resolver supports. -/
def supported_architectures : List String :=
  ["x86_64", "riscv_64", "riscv_32", "adreno", "mali", "armv8.2-a", "cuda", "vmvx"]

/-! ## Concrete inputs used by witnesses and counterexamples -/

def sample_im : ImportedModel := ⟨⟨"m1", "n1", .EXPORTED_TF, "main"⟩, ⟨"tosa"⟩⟩

def sample_cc1 : CompileConfig :=
  ⟨"cc1", [⟨⟨"llvm-cpu"⟩, ⟨"x86_64", "CASCADELAKE"⟩, TargetABI.LINUX_GNU⟩],
    ["-e1"], []⟩

def sample_cc2 : CompileConfig :=
  ⟨"cc2", [⟨⟨"vmvx"⟩, ⟨"vmvx", ""⟩, ⟨"linux-android29"⟩⟩], [],
    ["compile-stats"]⟩

def sample_cfg1 : ModuleGenerationConfig := ⟨sample_im, sample_cc1⟩

def sample_cfg2 : ModuleGenerationConfig := ⟨sample_im, sample_cc2⟩

def sample_configs : List ModuleGenerationConfig := [sample_cfg1, sample_cfg2]

def sample_map : String → Option ModelRule :=
  fun k => if k = "m1" then some ⟨"model-m1", "models/m1.tf"⟩ else none

def sample_rules : List CMakeRule :=
  (generate_rules "pkg" "root" sample_configs sample_map).toOption.getD []

/-- A Linalg model whose source rule's file path does not match the canonical
path of its imported model, so its import-rule build fails. -/
def c8_cfg1 : ModuleGenerationConfig :=
  ⟨⟨⟨"aaa", "na", .EXPORTED_LINALG_MLIR, "f"⟩, ⟨"linalg"⟩⟩,
   ⟨"cca", [⟨⟨"vmvx"⟩, ⟨"vmvx", ""⟩, ⟨"linux-gnu"⟩⟩], [], []⟩⟩

/-- A config whose model id is absent from the model-rule mapping. -/
def c8_cfg2 : ModuleGenerationConfig :=
  ⟨⟨⟨"zzz", "nb", .EXPORTED_TFLITE, "f"⟩, ⟨"tosa"⟩⟩,
   ⟨"ccb", [⟨⟨"vmvx"⟩, ⟨"vmvx", ""⟩, ⟨"linux-gnu"⟩⟩], [], []⟩⟩

def c8_map : String → Option ModelRule :=
  fun k => if k = "aaa" then some ⟨"model-aaa", "elsewhere"⟩ else none

/-- First of two distinct Linalg imported models sharing model id "m". -/
def c9_cfg1 : ModuleGenerationConfig :=
  ⟨⟨⟨"m", "n1", .EXPORTED_LINALG_MLIR, "main"⟩, ⟨"linalg"⟩⟩,
   ⟨"cc", [⟨⟨"vmvx"⟩, ⟨"vmvx", ""⟩, ⟨"linux-gnu"⟩⟩], [], []⟩⟩

/-- Second of the two; its canonical path differs from the first one's. -/
def c9_cfg2 : ModuleGenerationConfig :=
  ⟨⟨⟨"m", "n2", .EXPORTED_LINALG_MLIR, "main"⟩, ⟨"linalg"⟩⟩,
   ⟨"cc2", [⟨⟨"vmvx"⟩, ⟨"vmvx", ""⟩, ⟨"linux-gnu"⟩⟩], [], []⟩⟩

/-- The source rule's path agrees with the LAST imported model's path. -/
def c9_map : String → Option ModelRule :=
  fun k => if k = "m" then some ⟨"model-m", "r/m_n2.mlir"⟩ else none

/-- `pat` occurs as a contiguous segment of the second list. -/
def listContainsSeg (pat : List Char) : List Char → Bool
  | [] => pat.isEmpty
  | c :: rest => pat.isPrefixOf (c :: rest) || listContainsSeg pat rest

/-- `pat` occurs as a substring of `s`. -/
def strContainsSeg (s pat : String) : Bool :=
  listContainsSeg pat.data s.data

/-- Whether an `Except` value is a success. -/
def exceptIsOk {ε α : Type} : Except ε α → Bool
  | .ok _ => true
  | .error _ => false

end Iree

namespace IreeBench

/-! ## benchmark.py command construction

`benchmark_module` shells out to `iree-benchmark-module`; the embedding covers
its pure part: entry-function defaulting and validation, and the construction
of the command-line argument list (module handle and subprocess I/O are
external).  `inputs` holds the already-formatted per-input strings (the
source's numpy branch only formats an array into such a string). -/

/-- The benchmark executable path (`benchmark_exe()`); an opaque constant at
this level of modelling. -/
def benchmark_exe : String := "iree-benchmark-module"

/-- The pure result of `benchmark_module`: the subprocess argument list and
the `entry_function` recorded in the returned `BenchmarkResult`. -/
structure BenchmarkInvocation where
  args : List String
  entry_function : String
  deriving DecidableEq, Repr

/-- `funcs = [a for a in module.function_names if a != "__init"]`. -/
def nonInitFuncs (function_names : List String) : List String :=
  function_names.filter (fun a => a ≠ "__init")

/-- `benchmark_module` up to the subprocess call: filters out `"__init"`,
defaults and validates `entry_functiong`, then builds the argument list.
Note the source passes `funcs[0]` — not `entry_functiong` — to
`--function=`. -/
def benchmark_module_cmd (function_names : List String)
    (entry_functiong : Option String) (inputs : List String)
    (kwargs : List (String × String)) : Except String BenchmarkInvocation :=
  let funcs := nonInitFuncs function_names
  match (match entry_functiong with
    | none =>
      if funcs.length > 1 then
        Except.error ("No function specified with multiple options")
      else
        match funcs with
        | [] => Except.error "IndexError: list index out of range"
        | f :: _ => Except.ok f
    | some e => Except.ok e : Except String String) with
  | .error e => .error e
  | .ok entry_functiong =>
    if entry_functiong ∉ funcs then
      .error ("Attempted to benchmark unknown function " ++ entry_functiong
        ++ " of options")
    else
      match funcs with
      | [] => .error "IndexError: list index out of range"
      | f0 :: _ =>
        let args := [benchmark_exe, "--function=" ++ f0]
        let args := args
          ++ kwargs.map (fun kv => "--" ++ kv.1 ++ "=" ++ kv.2)
        let args := args ++ inputs.map (fun inp => "--input=" ++ inp)
        .ok { args := args, entry_function := entry_functiong }

end IreeBench

namespace Iree

/-! ## Association-list lemmas (Python-dict semantics) -/

theorem assocFind_assocUpdate {α : Type} (l : List (String × α)) (k k' : String)
    (v : α) :
    assocFind (assocUpdate l k v) k' =
      if k' = k then some v else assocFind l k' := by
  induction l with
  | nil =>
    by_cases h : k' = k
    · subst h; simp [assocUpdate, assocFind]
    · simp [assocUpdate, assocFind, h, Ne.symm h]
  | cons q rest ih =>
    obtain ⟨k0, v0⟩ := q
    by_cases h0 : k0 = k
    · subst h0
      by_cases h' : k' = k0
      · subst h'; simp [assocUpdate, assocFind]
      · simp [assocUpdate, assocFind, h', Ne.symm h']
    · by_cases h' : k0 = k'
      · subst h'
        simp [assocUpdate, assocFind, h0, Ne.symm h0]
      · simp [assocUpdate, assocFind, h0, h', ih]

theorem mem_assocUpdate {α : Type} {p : String × α} {l : List (String × α)}
    {k : String} {v : α} (h : p ∈ assocUpdate l k v) : p ∈ l ∨ p = (k, v) := by
  induction l with
  | nil => simpa [assocUpdate] using h
  | cons q rest ih =>
    obtain ⟨k0, v0⟩ := q
    by_cases h0 : k0 = k
    · subst h0
      rw [assocUpdate, if_pos rfl] at h
      rcases List.mem_cons.mp h with h' | h'
      · right; simpa using h'
      · left; exact List.mem_cons_of_mem _ h'
    · rw [assocUpdate, if_neg h0] at h
      rcases List.mem_cons.mp h with h' | h'
      · left; simp [h']
      · rcases ih h' with h'' | h''
        · left; exact List.mem_cons_of_mem _ h''
        · right; exact h''

theorem keys_assocUpdate {α : Type} (l : List (String × α)) (k : String)
    (v : α) :
    (assocUpdate l k v).map Prod.fst =
      if k ∈ l.map Prod.fst then l.map Prod.fst
      else l.map Prod.fst ++ [k] := by
  induction l with
  | nil => simp [assocUpdate]
  | cons q rest ih =>
    obtain ⟨k0, v0⟩ := q
    by_cases h0 : k0 = k
    · subst h0; simp [assocUpdate]
    · rw [assocUpdate, if_neg h0]
      by_cases hk : k ∈ rest.map Prod.fst
      · simp [ih, hk, Ne.symm h0]
      · simp [ih, hk, Ne.symm h0]

theorem nodup_keys_assocUpdate {α : Type} {l : List (String × α)} (k : String)
    (v : α) (h : (l.map Prod.fst).Nodup) :
    ((assocUpdate l k v).map Prod.fst).Nodup := by
  rw [keys_assocUpdate]
  by_cases hk : k ∈ l.map Prod.fst
  · simpa [hk] using h
  · simp [hk, List.nodup_append, h]

theorem mem_keys_assocUpdate_of_mem {α : Type} {l : List (String × α)}
    {k' : String} (k : String) (v : α) (h : k' ∈ l.map Prod.fst) :
    k' ∈ (assocUpdate l k v).map Prod.fst := by
  rw [keys_assocUpdate]
  by_cases hk : k ∈ l.map Prod.fst
  · simpa [hk] using h
  · simp [hk, h]

theorem self_mem_keys_assocUpdate {α : Type} (l : List (String × α))
    (k : String) (v : α) : k ∈ (assocUpdate l k v).map Prod.fst := by
  rw [keys_assocUpdate]
  by_cases hk : k ∈ l.map Prod.fst
  · simp [hk]
  · simp [hk]

/-! ## all_imported_models: deduplication facts -/

/-- The entries of the deduplication dict all come from the config list and
every entry's key is its imported model's model id. -/
theorem mem_all_imported_models
    {configs : List ModuleGenerationConfig} {p : String × ImportedModel}
    (h : p ∈ all_imported_models configs) :
    p.2.model.id = p.1 ∧ ∃ c ∈ configs, c.imported_model = p.2 := by
  suffices haux : ∀ (acc : List (String × ImportedModel)),
      p ∈ configs.foldl
        (fun a c => assocUpdate a c.imported_model.model.id c.imported_model)
        acc →
      p ∈ acc ∨ ∃ c ∈ configs, p = (c.imported_model.model.id, c.imported_model) by
    rcases haux [] h with h' | ⟨c, hc, hp⟩
    · exact absurd h' (List.not_mem_nil p)
    · subst hp
      exact ⟨rfl, c, hc, rfl⟩
  clear h
  induction configs with
  | nil => intro acc h; exact Or.inl h
  | cons c rest ih =>
    intro acc h
    rcases ih _ h with h' | ⟨c', hc', hp⟩
    · rcases mem_assocUpdate h' with h'' | h''
      · exact Or.inl h''
      · exact Or.inr ⟨c, List.mem_cons_self c rest, h''⟩
    · exact Or.inr ⟨c', List.mem_cons_of_mem c hc', hp⟩

/-- Every config's model id is a key of the deduplication dict. -/
theorem mem_keys_all_imported_models
    {configs : List ModuleGenerationConfig} {c : ModuleGenerationConfig}
    (h : c ∈ configs) :
    c.imported_model.model.id ∈ (all_imported_models configs).map Prod.fst := by
  suffices haux : ∀ (acc : List (String × ImportedModel)),
      (c.imported_model.model.id ∈ acc.map Prod.fst ∨ c ∈ configs) →
      c.imported_model.model.id ∈
        (configs.foldl
          (fun a c => assocUpdate a c.imported_model.model.id c.imported_model)
          acc).map Prod.fst from
    haux [] (Or.inr h)
  clear h
  induction configs with
  | nil =>
    intro acc h
    rcases h with h | h
    · exact h
    · exact absurd h (List.not_mem_nil c)
  | cons c' rest ih =>
    intro acc h
    rcases h with h | h
    · exact ih _ (Or.inl (mem_keys_assocUpdate_of_mem _ _ h))
    · rcases List.mem_cons.mp h with rfl | h'
      · exact ih _ (Or.inl (self_mem_keys_assocUpdate _ _ _))
      · exact ih _ (Or.inr h')

/-- The deduplication dict's keys are pairwise distinct. -/
theorem nodup_keys_all_imported_models
    (configs : List ModuleGenerationConfig) :
    ((all_imported_models configs).map Prod.fst).Nodup := by
  suffices haux : ∀ (acc : List (String × ImportedModel)),
      (acc.map Prod.fst).Nodup →
      ((configs.foldl
        (fun a c => assocUpdate a c.imported_model.model.id c.imported_model)
        acc).map Prod.fst).Nodup from
    haux [] (by simp)
  induction configs with
  | nil => intro acc h; exact h
  | cons c rest ih =>
    intro acc h
    exact ih _ (nodup_keys_assocUpdate _ _ h)

/-- Reading the deduplication dict at a key returns the LAST imported model
with that model id in input order (Python dict last-assignment-wins). -/
theorem assocFind_all_imported_models
    (configs : List ModuleGenerationConfig) (mid : String) :
    assocFind (all_imported_models configs) mid =
      last_imported_model_for configs mid := by
  suffices haux : ∀ (acc : List (String × ImportedModel)),
      assocFind
        (configs.foldl
          (fun a c => assocUpdate a c.imported_model.model.id c.imported_model)
          acc) mid =
      configs.foldl
        (fun o c =>
          if c.imported_model.model.id = mid then some c.imported_model else o)
        (assocFind acc mid) from
    haux []
  induction configs with
  | nil => intro acc; rfl
  | cons c rest ih =>
    intro acc
    rw [List.foldl_cons, List.foldl_cons, ih, assocFind_assocUpdate]
    by_cases h : c.imported_model.model.id = mid
    · simp [h]
    · simp [h, Ne.symm h]

/-! ## build_import_rules / build_compile_rules facts -/

/-- On success the import-rule map binds exactly the keys of its input, in
order. -/
theorem build_import_rules_keys {package_name root_path : String}
    {model_rule_map : String → Option ModelRule}
    {l : List (String × ImportedModel)} {rules : List CMakeRule}
    {rmap : List (String × IreeModelImportRule)}
    (h : build_import_rules package_name root_path model_rule_map l =
      .ok (rules, rmap)) :
    rmap.map Prod.fst = l.map Prod.fst := by
  induction l generalizing rules rmap with
  | nil =>
    simp only [build_import_rules, Except.ok.injEq, Prod.mk.injEq] at h
    simp [← h.2]
  | cons p rest ih =>
    obtain ⟨k, im⟩ := p
    cases hm : model_rule_map im.model.id with
    | none => simp [build_import_rules, hm] at h
    | some mr =>
      cases hb : build_model_import_rule package_name mr im
          (get_imported_model_path im root_path) with
      | error e => simp [build_import_rules, hm, hb] at h
      | ok ir =>
        cases hr : build_import_rules package_name root_path model_rule_map
            rest with
        | error e => simp [build_import_rules, hm, hb, hr] at h
        | ok pr =>
          obtain ⟨rules', rmap'⟩ := pr
          simp only [build_import_rules, hm, hb, hr, Except.ok.injEq,
            Prod.mk.injEq] at h
          rw [← h.2]
          simp [ih hr]

/-- If any deduplicated imported model's id is missing from the model-rule
mapping, the import phase fails with some error. -/
theorem build_import_rules_missing (package_name root_path : String)
    {model_rule_map : String → Option ModelRule}
    {l : List (String × ImportedModel)}
    (h : ∃ p ∈ l, model_rule_map p.2.model.id = none) :
    ∃ msg, build_import_rules package_name root_path model_rule_map l =
      .error msg := by
  induction l with
  | nil => simp at h
  | cons p rest ih =>
    obtain ⟨k, im⟩ := p
    cases hm : model_rule_map im.model.id with
    | none => simp [build_import_rules, hm]
    | some mr =>
      have hrest : ∃ p ∈ rest, model_rule_map p.2.model.id = none := by
        rcases h with ⟨q, hq, hqn⟩
        rcases List.mem_cons.mp hq with rfl | hq'
        · rw [hm] at hqn; cases hqn
        · exact ⟨q, hq', hqn⟩
      obtain ⟨msg, hmsg⟩ := ih hrest
      cases hb : build_model_import_rule package_name mr im
          (get_imported_model_path im root_path) with
      | error e => simp [build_import_rules, hm, hb]
      | ok ir => simp [build_import_rules, hm, hb, hmsg]

/-- On success every listed imported model was looked up and import-rule-built
successfully, and its rule is bound to its key in the returned map. -/
theorem build_import_rules_sound {package_name root_path : String}
    {model_rule_map : String → Option ModelRule}
    {l : List (String × ImportedModel)} {rules : List CMakeRule}
    {rmap : List (String × IreeModelImportRule)}
    (h : build_import_rules package_name root_path model_rule_map l =
      .ok (rules, rmap)) :
    ∀ p ∈ l, ∃ mr ir, model_rule_map p.2.model.id = some mr ∧
      build_model_import_rule package_name mr p.2
        (get_imported_model_path p.2 root_path) = .ok ir ∧
      (p.1, ir) ∈ rmap ∧ ir.cmake_rules ⊆ rules := by
  induction l generalizing rules rmap with
  | nil => intro p hp; exact absurd hp (List.not_mem_nil p)
  | cons q rest ih =>
    obtain ⟨k, im⟩ := q
    intro p hp
    cases hm : model_rule_map im.model.id with
    | none => simp [build_import_rules, hm] at h
    | some mr =>
      cases hb : build_model_import_rule package_name mr im
          (get_imported_model_path im root_path) with
      | error e => simp [build_import_rules, hm, hb] at h
      | ok ir =>
        cases hr : build_import_rules package_name root_path model_rule_map
            rest with
        | error e => simp [build_import_rules, hm, hb, hr] at h
        | ok pr =>
          obtain ⟨rules', rmap'⟩ := pr
          simp only [build_import_rules, hm, hb, hr, Except.ok.injEq,
            Prod.mk.injEq] at h
          rcases List.mem_cons.mp hp with rfl | hp'
          · refine ⟨mr, ir, hm, hb, ?_, ?_⟩
            · rw [← h.2]; exact List.mem_cons_self _ _
            · rw [← h.1]
              exact List.subset_append_left _ _
          · obtain ⟨mr', ir', hm', hb', hmem', hsub'⟩ := ih hr p hp'
            refine ⟨mr', ir', hm', hb', ?_, ?_⟩
            · rw [← h.2]; exact List.mem_cons_of_mem _ hmem'
            · rw [← h.1]
              exact hsub'.trans (List.subset_append_right _ _)

/-- On success of the compile phase, every config's compile rule was built
from the import rule bound to its model id, its underlying rules are among
the emitted ones, and the two target-name buckets are exactly the tagged and
untagged configs' module target names in input order. -/
theorem build_compile_rules_sound {root_path : String}
    {rmap : List (String × IreeModelImportRule)}
    {configs : List ModuleGenerationConfig} {crules : List CMakeRule}
    {names snames : List String}
    (h : build_compile_rules root_path rmap configs =
      .ok (crules, names, snames)) :
    (∀ c ∈ configs, ∃ ir cr,
      assocFind rmap c.imported_model.model.id = some ir ∧
      build_module_compile_rule ir c.imported_model c.compile_config
        (get_module_dir_path c root_path ++ "/" ++ MODULE_FILENAME) = .ok cr ∧
      cr.cmake_rules ⊆ crules) ∧
    names = (configs.filter
      (fun c => !decide (COMPILE_STATS_TAG ∈ c.compile_config.tags))).map
        module_target_name ∧
    snames = (configs.filter
      (fun c => decide (COMPILE_STATS_TAG ∈ c.compile_config.tags))).map
        module_target_name := by
  induction configs generalizing crules names snames with
  | nil =>
    simp only [build_compile_rules, Except.ok.injEq, Prod.mk.injEq] at h
    refine ⟨fun c hc => absurd hc (List.not_mem_nil c), ?_, ?_⟩
    · simp [← h.2.1]
    · simp [← h.2.2]
  | cons c rest ih =>
    cases hf : assocFind rmap c.imported_model.model.id with
    | none => simp [build_compile_rules, hf] at h
    | some ir =>
      cases hb : build_module_compile_rule ir c.imported_model
          c.compile_config
          (get_module_dir_path c root_path ++ "/" ++ MODULE_FILENAME) with
      | error e => simp [build_compile_rules, hf, hb] at h
      | ok cr =>
        cases hr : build_compile_rules root_path rmap rest with
        | error e => simp [build_compile_rules, hf, hb, hr] at h
        | ok triple =>
          obtain ⟨crules', names', snames'⟩ := triple
          have htn : cr.target_name = module_target_name c := by
            rw [build_module_compile_rule] at hb
            cases hflags : generate_compile_flags c.compile_config
                c.imported_model.dialect_type.value with
            | error e => rw [hflags] at hb; cases hb
            | ok flags =>
              rw [hflags] at hb
              simp only [Except.ok.injEq] at hb
              rw [← hb]
              rfl
          obtain ⟨ihall, ihn, ihs⟩ := ih hr
          by_cases ht : COMPILE_STATS_TAG ∈ c.compile_config.tags
          · simp only [build_compile_rules, hf, hb, hr, if_pos ht,
              Except.ok.injEq, Prod.mk.injEq] at h
            refine ⟨?_, ?_, ?_⟩
            · intro c' hc'
              rcases List.mem_cons.mp hc' with rfl | hc''
              · exact ⟨ir, cr, hf, hb, by
                  rw [← h.1]; exact List.subset_append_left _ _⟩
              · obtain ⟨ir', cr', hf', hb', hsub'⟩ := ihall c' hc''
                exact ⟨ir', cr', hf', hb', by
                  rw [← h.1]
                  exact hsub'.trans (List.subset_append_right _ _)⟩
            · rw [← h.2.1, ihn]
              simp [ht]
            · rw [← h.2.2, ihs]
              simp [ht, htn]
          · simp only [build_compile_rules, hf, hb, hr, if_neg ht,
              Except.ok.injEq, Prod.mk.injEq] at h
            refine ⟨?_, ?_, ?_⟩
            · intro c' hc'
              rcases List.mem_cons.mp hc' with rfl | hc''
              · exact ⟨ir, cr, hf, hb, by
                  rw [← h.1]; exact List.subset_append_left _ _⟩
              · obtain ⟨ir', cr', hf', hb', hsub'⟩ := ihall c' hc''
                exact ⟨ir', cr', hf', hb', by
                  rw [← h.1]
                  exact hsub'.trans (List.subset_append_right _ _)⟩
            · rw [← h.2.1, ihn]
              simp [ht, htn]
            · rw [← h.2.2, ihs]
              simp [ht]

/-- A key among an association list's keys has a value. -/
theorem assocFind_of_mem_keys {α : Type} {l : List (String × α)} {k : String}
    (h : k ∈ l.map Prod.fst) : ∃ v, assocFind l k = some v := by
  induction l with
  | nil => simp at h
  | cons p rest ih =>
    obtain ⟨k0, v0⟩ := p
    by_cases h0 : k0 = k
    · exact ⟨v0, by simp [assocFind, h0]⟩
    · have h' : k ∈ rest.map Prod.fst := by
        rw [List.map_cons] at h
        rcases List.mem_cons.mp h with h'' | h''
        · exact absurd h''.symm h0
        · exact h''
      obtain ⟨v, hv⟩ := ih h'
      exact ⟨v, by simp [assocFind, h0, hv]⟩

/-- The shape of a successfully built compile rule: exactly one underlying
bytecode-module rule whose source is the import rule's output file. -/
theorem build_module_compile_rule_shape {mir : IreeModelImportRule}
    {im : ImportedModel} {cc : CompileConfig} {out : String}
    {cr : IreeModuleCompileRule}
    (h : build_module_compile_rule mir im cc out = .ok cr) :
    cr.target_name = "iree-module-" ++ im.model.id ++ "-" ++ cc.id ∧
    cr.output_module_path = out ∧
    ∃ flags, cr.cmake_rules =
      [CMakeRule.bytecodeModule cr.target_name mir.output_file_path out
        flags] := by
  rw [build_module_compile_rule] at h
  cases hflags : generate_compile_flags cc im.dialect_type.value with
  | error e => rw [hflags] at h; cases h
  | ok flags =>
    rw [hflags] at h
    simp only [Except.ok.injEq] at h
    rw [← h]
    exact ⟨rfl, rfl, flags ++ cc.extra_flags, rfl⟩

/-! ## Claims about generate_rules -/

/-- C3: a successful output is exactly: all import-phase underlying rules,
then all compile-phase underlying rules (in the two loops' traversal orders),
then at most three aggregate add-dependencies rules in the fixed order
"import models" / benchmark-suites / compile-stats, each present only when
its dependency list is non-empty; an empty config list yields an empty
output. -/
theorem c3_output_order (package_name root_path : String)
    (configs : List ModuleGenerationConfig)
    (model_rule_map : String → Option ModelRule) (rules : List CMakeRule)
    (h : generate_rules package_name root_path configs model_rule_map =
      .ok rules) :
    (∃ irules rmap crules names snames,
      build_import_rules package_name root_path model_rule_map
        (all_imported_models configs) = .ok (irules, rmap) ∧
      build_compile_rules root_path rmap configs = .ok (crules, names, snames) ∧
      rules = irules ++ crules
        ++ (if rmap.length > 0 then
              [CMakeRule.addDependencies BENCHMARK_IMPORT_MODELS_CMAKE_TARGET
                (rmap.map (fun entry =>
                  build_target_path package_name entry.2.target_name))]
            else [])
        ++ (if names.length > 0 then
              [CMakeRule.addDependencies BENCHMARK_SUITES_CMAKE_TARGET
                (names.map (build_target_path package_name))]
            else [])
        ++ (if snames.length > 0 then
              [CMakeRule.addDependencies E2E_COMPILE_STATS_SUITES
                (snames.map (build_target_path package_name))]
            else [])) ∧
    (configs = [] → rules = []) := by
  constructor
  · cases hi : build_import_rules package_name root_path model_rule_map
        (all_imported_models configs) with
    | error e => simp [generate_rules, hi] at h
    | ok pi =>
      obtain ⟨irules, rmap⟩ := pi
      cases hc : build_compile_rules root_path rmap configs with
      | error e => simp [generate_rules, hi, hc] at h
      | ok pc =>
        obtain ⟨crules, names, snames⟩ := pc
        simp only [generate_rules, hi, hc, Except.ok.injEq] at h
        refine ⟨irules, rmap, crules, names, snames, rfl, hc, ?_⟩
        rw [← h]
  · intro he
    subst he
    rw [show generate_rules package_name root_path [] model_rule_map =
      .ok [] from rfl] at h
    exact (Except.ok.inj h).symm

theorem c3_output_order_witness :
    (generate_rules "p" "r" [] (fun _ => none) = .ok ([] : List CMakeRule)) ∧
    ((∃ irules rmap crules names snames,
      build_import_rules "p" "r" (fun _ => none)
        (all_imported_models ([] : List ModuleGenerationConfig)) =
          .ok (irules, rmap) ∧
      build_compile_rules "r" rmap [] = .ok (crules, names, snames) ∧
      ([] : List CMakeRule) = irules ++ crules
        ++ (if rmap.length > 0 then
              [CMakeRule.addDependencies BENCHMARK_IMPORT_MODELS_CMAKE_TARGET
                (rmap.map (fun entry =>
                  build_target_path "p" entry.2.target_name))]
            else [])
        ++ (if names.length > 0 then
              [CMakeRule.addDependencies BENCHMARK_SUITES_CMAKE_TARGET
                (names.map (build_target_path "p"))]
            else [])
        ++ (if snames.length > 0 then
              [CMakeRule.addDependencies E2E_COMPILE_STATS_SUITES
                (snames.map (build_target_path "p"))]
            else [])) ∧
    (([] : List ModuleGenerationConfig) = [] → ([] : List CMakeRule) = [])) :=
  ⟨rfl, c3_output_order "p" "r" [] (fun _ => none) [] rfl⟩

/-- C2: two configs sharing a model id share exactly one import-rule binding,
and every config with that model id gets its compile rule built from that
single import rule, with the import rule's output file path as the
bytecode-module source. -/
theorem c2_shared_model_single_import (package_name root_path : String)
    (configs : List ModuleGenerationConfig)
    (model_rule_map : String → Option ModelRule) (rules : List CMakeRule)
    (cfg₁ cfg₂ : ModuleGenerationConfig)
    (h : generate_rules package_name root_path configs model_rule_map =
      .ok rules)
    (h₁ : cfg₁ ∈ configs) (h₂ : cfg₂ ∈ configs)
    (hid : cfg₁.imported_model.model.id = cfg₂.imported_model.model.id) :
    ∃ irules rmap crules names snames ir,
      build_import_rules package_name root_path model_rule_map
        (all_imported_models configs) = .ok (irules, rmap) ∧
      build_compile_rules root_path rmap configs = .ok (crules, names, snames) ∧
      (rmap.map Prod.fst).count cfg₁.imported_model.model.id = 1 ∧
      assocFind rmap cfg₁.imported_model.model.id = some ir ∧
      (∀ c ∈ configs,
        c.imported_model.model.id = cfg₁.imported_model.model.id →
        ∃ cr flags,
          build_module_compile_rule ir c.imported_model c.compile_config
            (get_module_dir_path c root_path ++ "/" ++ MODULE_FILENAME) =
              .ok cr ∧
          cr.cmake_rules = [CMakeRule.bytecodeModule cr.target_name
            ir.output_file_path
            (get_module_dir_path c root_path ++ "/" ++ MODULE_FILENAME)
            flags] ∧
          cr.cmake_rules ⊆ crules) := by
  cases hi : build_import_rules package_name root_path model_rule_map
      (all_imported_models configs) with
  | error e => simp [generate_rules, hi] at h
  | ok pi =>
    obtain ⟨irules, rmap⟩ := pi
    cases hc : build_compile_rules root_path rmap configs with
    | error e => simp [generate_rules, hi, hc] at h
    | ok pc =>
      obtain ⟨crules, names, snames⟩ := pc
      have hkeys : rmap.map Prod.fst =
          (all_imported_models configs).map Prod.fst :=
        build_import_rules_keys hi
      have hmem : cfg₁.imported_model.model.id ∈ rmap.map Prod.fst := by
        rw [hkeys]; exact mem_keys_all_imported_models h₁
      have hnodup : (rmap.map Prod.fst).Nodup := by
        rw [hkeys]; exact nodup_keys_all_imported_models configs
      obtain ⟨ir, hir⟩ := assocFind_of_mem_keys hmem
      refine ⟨irules, rmap, crules, names, snames, ir, rfl, hc,
        List.count_eq_one_of_mem hnodup hmem, hir, ?_⟩
      intro c hcmem hcid
      obtain ⟨hall, -, -⟩ := build_compile_rules_sound hc
      obtain ⟨ir', cr, hf', hb', hsub⟩ := hall c hcmem
      rw [hcid, hir] at hf'
      obtain rfl : ir = ir' := Option.some.inj hf'
      obtain ⟨-, -, flags, hshape⟩ := build_module_compile_rule_shape hb'
      exact ⟨cr, flags, hb', hshape, hsub⟩

theorem c2_shared_model_single_import_witness :
    (generate_rules "pkg" "root" sample_configs sample_map =
      .ok sample_rules) ∧
    sample_cfg1 ∈ sample_configs ∧ sample_cfg2 ∈ sample_configs ∧
    sample_cfg1.imported_model.model.id = sample_cfg2.imported_model.model.id ∧
    (∃ irules rmap crules names snames ir,
      build_import_rules "pkg" "root" sample_map
        (all_imported_models sample_configs) = .ok (irules, rmap) ∧
      build_compile_rules "root" rmap sample_configs =
        .ok (crules, names, snames) ∧
      (rmap.map Prod.fst).count sample_cfg1.imported_model.model.id = 1 ∧
      assocFind rmap sample_cfg1.imported_model.model.id = some ir ∧
      (∀ c ∈ sample_configs,
        c.imported_model.model.id = sample_cfg1.imported_model.model.id →
        ∃ cr flags,
          build_module_compile_rule ir c.imported_model c.compile_config
            (get_module_dir_path c "root" ++ "/" ++ MODULE_FILENAME) =
              .ok cr ∧
          cr.cmake_rules = [CMakeRule.bytecodeModule cr.target_name
            ir.output_file_path
            (get_module_dir_path c "root" ++ "/" ++ MODULE_FILENAME)
            flags] ∧
          cr.cmake_rules ⊆ crules)) :=
  ⟨rfl, by decide, by decide, rfl,
    c2_shared_model_single_import "pkg" "root" sample_configs sample_map
      sample_rules sample_cfg1 sample_cfg2 rfl (by decide) (by decide) rfl⟩

/-- C4: the two aggregate dependency buckets are exactly the tagged and
untagged configs' module target names (classification is by the tag set
alone); a tagged config's target is in the compile-stats bucket and — as long
as no untagged config produces the same target name — not in the ordinary
bucket, and symmetrically for untagged configs; each non-empty bucket's
aggregate rule carries exactly that bucket, package-prefixed, in the
output. -/
theorem c4_compile_stats_classification (package_name root_path : String)
    (configs : List ModuleGenerationConfig)
    (model_rule_map : String → Option ModelRule) (rules : List CMakeRule)
    (h : generate_rules package_name root_path configs model_rule_map =
      .ok rules) :
    ∃ irules rmap crules names snames,
      build_import_rules package_name root_path model_rule_map
        (all_imported_models configs) = .ok (irules, rmap) ∧
      build_compile_rules root_path rmap configs = .ok (crules, names, snames) ∧
      names = (configs.filter
        (fun c => !decide (COMPILE_STATS_TAG ∈ c.compile_config.tags))).map
          module_target_name ∧
      snames = (configs.filter
        (fun c => decide (COMPILE_STATS_TAG ∈ c.compile_config.tags))).map
          module_target_name ∧
      (∀ c ∈ configs, COMPILE_STATS_TAG ∈ c.compile_config.tags →
        module_target_name c ∈ snames ∧
        ((∀ c' ∈ configs, module_target_name c' = module_target_name c →
            COMPILE_STATS_TAG ∈ c'.compile_config.tags) →
          module_target_name c ∉ names)) ∧
      (∀ c ∈ configs, COMPILE_STATS_TAG ∉ c.compile_config.tags →
        module_target_name c ∈ names ∧
        ((∀ c' ∈ configs, module_target_name c' = module_target_name c →
            COMPILE_STATS_TAG ∉ c'.compile_config.tags) →
          module_target_name c ∉ snames)) ∧
      (snames ≠ [] →
        CMakeRule.addDependencies E2E_COMPILE_STATS_SUITES
          (snames.map (build_target_path package_name)) ∈ rules) ∧
      (names ≠ [] →
        CMakeRule.addDependencies BENCHMARK_SUITES_CMAKE_TARGET
          (names.map (build_target_path package_name)) ∈ rules) := by
  cases hi : build_import_rules package_name root_path model_rule_map
      (all_imported_models configs) with
  | error e => simp [generate_rules, hi] at h
  | ok pi =>
    obtain ⟨irules, rmap⟩ := pi
    cases hc : build_compile_rules root_path rmap configs with
    | error e => simp [generate_rules, hi, hc] at h
    | ok pc =>
      obtain ⟨crules, names, snames⟩ := pc
      obtain ⟨-, hn, hs⟩ := build_compile_rules_sound hc
      simp only [generate_rules, hi, hc, Except.ok.injEq] at h
      refine ⟨irules, rmap, crules, names, snames, rfl, hc, hn, hs,
        ?_, ?_, ?_, ?_⟩
      · intro c hcmem ht
        constructor
        · rw [hs]
          exact List.mem_map_of_mem _
            (List.mem_filter.mpr ⟨hcmem, by simpa using ht⟩)
        · intro hno hmemn
          rw [hn] at hmemn
          obtain ⟨c', hc', heq⟩ := List.mem_map.mp hmemn
          have hc'' := List.mem_filter.mp hc'
          exact (by simpa using hc''.2 :
            COMPILE_STATS_TAG ∉ c'.compile_config.tags) (hno c' hc''.1 heq)
      · intro c hcmem ht
        constructor
        · rw [hn]
          exact List.mem_map_of_mem _
            (List.mem_filter.mpr ⟨hcmem, by simpa using ht⟩)
        · intro hno hmems
          rw [hs] at hmems
          obtain ⟨c', hc', heq⟩ := List.mem_map.mp hmems
          have hc'' := List.mem_filter.mp hc'
          exact (hno c' hc''.1 heq) (by simpa using hc''.2)
      · intro hne
        rw [← h]
        have hl : snames.length > 0 := List.length_pos.mpr hne
        simp [hl]
      · intro hne
        rw [← h]
        have hl : names.length > 0 := List.length_pos.mpr hne
        simp [hl]

theorem c4_compile_stats_classification_witness :
    (generate_rules "pkg" "root" sample_configs sample_map =
      .ok sample_rules) ∧
    (∃ irules rmap crules names snames,
      build_import_rules "pkg" "root" sample_map
        (all_imported_models sample_configs) = .ok (irules, rmap) ∧
      build_compile_rules "root" rmap sample_configs =
        .ok (crules, names, snames) ∧
      names = (sample_configs.filter
        (fun c => !decide (COMPILE_STATS_TAG ∈ c.compile_config.tags))).map
          module_target_name ∧
      snames = (sample_configs.filter
        (fun c => decide (COMPILE_STATS_TAG ∈ c.compile_config.tags))).map
          module_target_name ∧
      (∀ c ∈ sample_configs, COMPILE_STATS_TAG ∈ c.compile_config.tags →
        module_target_name c ∈ snames ∧
        ((∀ c' ∈ sample_configs,
            module_target_name c' = module_target_name c →
            COMPILE_STATS_TAG ∈ c'.compile_config.tags) →
          module_target_name c ∉ names)) ∧
      (∀ c ∈ sample_configs, COMPILE_STATS_TAG ∉ c.compile_config.tags →
        module_target_name c ∈ names ∧
        ((∀ c' ∈ sample_configs,
            module_target_name c' = module_target_name c →
            COMPILE_STATS_TAG ∉ c'.compile_config.tags) →
          module_target_name c ∉ snames)) ∧
      (snames ≠ [] →
        CMakeRule.addDependencies E2E_COMPILE_STATS_SUITES
          (snames.map (build_target_path "pkg")) ∈ sample_rules) ∧
      (names ≠ [] →
        CMakeRule.addDependencies BENCHMARK_SUITES_CMAKE_TARGET
          (names.map (build_target_path "pkg")) ∈ sample_rules)) :=
  ⟨rfl, c4_compile_stats_classification "pkg" "root" sample_configs
    sample_map sample_rules rfl⟩

/-- Folding dict updates never changes the head entry's key. -/
theorem foldl_assocUpdate_head (configs : List ModuleGenerationConfig)
    (k : String) (v : ImportedModel) (t : List (String × ImportedModel)) :
    ∃ v' t', configs.foldl
      (fun a c => assocUpdate a c.imported_model.model.id c.imported_model)
      ((k, v) :: t) = (k, v') :: t' := by
  induction configs generalizing v t with
  | nil => exact ⟨v, t, rfl⟩
  | cons c rest ih =>
    rw [List.foldl_cons]
    simp only [assocUpdate]
    by_cases hk : k = c.imported_model.model.id
    · rw [if_pos hk]
      exact ih _ _
    · rw [if_neg hk]
      exact ih _ _

/-- C8 (amended): if any referenced model id is absent from the model-rule
mapping, `generate_rules` fails with a fatal error and returns no partial
output; when the first config's model id is the missing one, the error is the
model-rule-not-found error naming that id (an earlier entry of the
deduplication traversal may otherwise fail first with its own error). -/
theorem c8_missing_model_rule (package_name root_path : String)
    (configs : List ModuleGenerationConfig)
    (model_rule_map : String → Option ModelRule)
    (h : ∃ c ∈ configs, model_rule_map c.imported_model.model.id = none) :
    (∃ msg, generate_rules package_name root_path configs model_rule_map =
      .error msg) ∧
    (∀ c₀ rest, configs = c₀ :: rest →
      model_rule_map c₀.imported_model.model.id = none →
      generate_rules package_name root_path configs model_rule_map =
        .error ("Model rule not found for "
          ++ c₀.imported_model.model.id ++ ".")) := by
  constructor
  · obtain ⟨c, hcmem, hnone⟩ := h
    have hk := mem_keys_all_imported_models hcmem
    obtain ⟨p, hp, hfst⟩ := List.mem_map.mp hk
    have hinv := (mem_all_imported_models hp).1
    have hpn : model_rule_map p.2.model.id = none := by
      rw [hinv, hfst]; exact hnone
    obtain ⟨msg, hmsg⟩ := build_import_rules_missing package_name root_path ⟨p, hp, hpn⟩
    exact ⟨msg, by simp [generate_rules, hmsg]⟩
  · intro c₀ rest hcfg hnone
    subst hcfg
    obtain ⟨v', t', hhead⟩ := foldl_assocUpdate_head rest
      c₀.imported_model.model.id c₀.imported_model []
    have hlist : all_imported_models (c₀ :: rest) =
        (c₀.imported_model.model.id, v') :: t' := by
      rw [all_imported_models, List.foldl_cons]
      exact hhead
    have hvid : v'.model.id = c₀.imported_model.model.id := by
      have hm : (c₀.imported_model.model.id, v') ∈
          all_imported_models (c₀ :: rest) := by
        rw [hlist]; exact List.mem_cons_self _ _
      exact (mem_all_imported_models hm).1
    have himp : build_import_rules package_name root_path model_rule_map
        (all_imported_models (c₀ :: rest)) =
        .error ("Model rule not found for "
          ++ c₀.imported_model.model.id ++ ".") := by
      rw [hlist]
      simp [build_import_rules, hvid, hnone]
    simp [generate_rules, himp]

theorem c8_missing_model_rule_witness :
    (∃ c ∈ [c8_cfg2], c8_map c.imported_model.model.id = none) ∧
    ((∃ msg, generate_rules "p" "r" [c8_cfg2] c8_map = .error msg) ∧
     (∀ c₀ rest, [c8_cfg2] = c₀ :: rest →
       c8_map c₀.imported_model.model.id = none →
       generate_rules "p" "r" [c8_cfg2] c8_map =
         .error ("Model rule not found for "
           ++ c₀.imported_model.model.id ++ "."))) :=
  ⟨⟨c8_cfg2, by decide, rfl⟩,
    c8_missing_model_rule "p" "r" [c8_cfg2] c8_map ⟨c8_cfg2, by decide, rfl⟩⟩

/-- C8 counterexample: with a first config whose Linalg path check fails and a
second config whose model id "zzz" is missing from the mapping, the run does
fail, but with the Linalg path error — whose message does not contain the
missing model id "zzz" — refuting the claim that the failure message always
includes the missing model id. -/
theorem c8_counterexample :
    c8_map c8_cfg2.imported_model.model.id = none ∧
    c8_cfg2 ∈ [c8_cfg1, c8_cfg2] ∧
    generate_rules "p" "r" [c8_cfg1, c8_cfg2] c8_map =
      .error ("Separate path for Linalg model isn't supported "
        ++ "('elsewhere' != 'r/aaa_na.mlir')") ∧
    strContainsSeg ("Separate path for Linalg model isn't supported "
        ++ "('elsewhere' != 'r/aaa_na.mlir')")
      c8_cfg2.imported_model.model.id = false := by
  refine ⟨rfl, by decide, rfl, by decide⟩

/-- C9 (amended): deduplication keeps, per model id, only the LAST
ImportedModel in input order, and only that survivor is path-checked: for an
already-in-dialect survivor the import-rule build succeeds exactly when the
source rule's file path equals the requested output path; an earlier
ImportedModel with the same id is never compared, so its differing output
path cannot cause a rejection. -/
theorem c9_dedup_checks_only_survivor (package_name : String)
    (configs : List ModuleGenerationConfig) (mid : String) (mr : ModelRule)
    (im : ImportedModel) (out : String) :
    (assocFind (all_imported_models configs) mid =
      last_imported_model_for configs mid) ∧
    (im.model.source_type = .EXPORTED_LINALG_MLIR →
      (mr.file_path = out →
        build_model_import_rule package_name mr im out =
          .ok { target_name := mr.target_name, output_file_path := out,
                cmake_rules := [] }) ∧
      (mr.file_path ≠ out →
        ∃ msg, build_model_import_rule package_name mr im out =
          .error msg)) := by
  refine ⟨assocFind_all_imported_models configs mid, ?_⟩
  intro hsrc
  constructor
  · intro heq
    simp [build_model_import_rule, hsrc, heq]
  · intro hne
    simp [build_model_import_rule, hsrc, hne]

theorem c9_dedup_checks_only_survivor_witness :
    (assocFind (all_imported_models [c9_cfg1, c9_cfg2]) "m" =
      last_imported_model_for [c9_cfg1, c9_cfg2] "m") ∧
    (build_model_import_rule "p" ⟨"model-m", "r/m_n2.mlir"⟩
        c9_cfg2.imported_model "r/m_n2.mlir" =
      .ok { target_name := "model-m", output_file_path := "r/m_n2.mlir",
            cmake_rules := [] }) ∧
    (∃ msg, build_model_import_rule "p" ⟨"model-m", "other"⟩
        c9_cfg2.imported_model "r/m_n2.mlir" = .error msg) :=
  ⟨(c9_dedup_checks_only_survivor "p" [c9_cfg1, c9_cfg2] "m"
      ⟨"model-m", "r/m_n2.mlir"⟩ c9_cfg2.imported_model "r/m_n2.mlir").1,
   ((c9_dedup_checks_only_survivor "p" [c9_cfg1, c9_cfg2] "m"
      ⟨"model-m", "r/m_n2.mlir"⟩ c9_cfg2.imported_model "r/m_n2.mlir").2
        rfl).1 rfl,
   ((c9_dedup_checks_only_survivor "p" [c9_cfg1, c9_cfg2] "m"
      ⟨"model-m", "other"⟩ c9_cfg2.imported_model "r/m_n2.mlir").2
        rfl).2 (by decide)⟩

/-- C9 counterexample: two distinct already-in-dialect ImportedModels share
model id "m" and have different canonical output paths, yet the generation
run succeeds (the source rule's path matches the dedup survivor's path), so
the run is NOT rejected as the claim requires. -/
theorem c9_counterexample :
    c9_cfg1.imported_model ≠ c9_cfg2.imported_model ∧
    c9_cfg1.imported_model.model.id = c9_cfg2.imported_model.model.id ∧
    c9_cfg1.imported_model.model.source_type = .EXPORTED_LINALG_MLIR ∧
    c9_cfg2.imported_model.model.source_type = .EXPORTED_LINALG_MLIR ∧
    get_imported_model_path c9_cfg1.imported_model "r" ≠
      get_imported_model_path c9_cfg2.imported_model "r" ∧
    exceptIsOk (generate_rules "p" "r" [c9_cfg1, c9_cfg2] c9_map) = true := by
  refine ⟨by decide, rfl, rfl, rfl, by decide, by decide⟩

/-! ## Claims about the flag resolver and the rule builder -/

/-- C1: for a compile config with a single x86_64/CASCADELAKE/LINUX_GNU target
and dialect "tosa", the compile rule's flag list is exactly the backend
selector, `--iree-input-type=tosa`, the x86_64 triple, the cascadelake cpu
flag, followed by `extra_flags` verbatim as the last flags. -/
theorem c1_x86_64_flag_order (mir : IreeModelImportRule) (im : ImportedModel)
    (cc : CompileConfig) (out : String) (t : CompileTarget)
    (hts : cc.compile_targets = [t])
    (harch : t.target_architecture = ⟨"x86_64", "CASCADELAKE"⟩)
    (habi : t.target_abi = TargetABI.LINUX_GNU)
    (hdial : im.dialect_type = ⟨"tosa"⟩) :
    build_module_compile_rule mir im cc out =
      .ok { target_name := "iree-module-" ++ im.model.id ++ "-" ++ cc.id,
            output_module_path := out,
            cmake_rules := [CMakeRule.bytecodeModule
              ("iree-module-" ++ im.model.id ++ "-" ++ cc.id)
              mir.output_file_path out
              (["--iree-hal-target-backends=" ++ t.target_backend.value,
                "--iree-input-type=tosa",
                "--iree-llvm-target-triple=x86_64-unknown-linux-gnu",
                "--iree-llvm-target-cpu=cascadelake"] ++ cc.extra_flags)] } := by
  obtain ⟨tb, ta, tabi⟩ := t
  simp only at harch habi
  subst harch habi
  obtain ⟨imm, imd⟩ := im
  simp only at hdial
  subst hdial
  simp [build_module_compile_rule, generate_compile_flags,
    generate_compile_target_flags, hts, TargetABI.LINUX_GNU, string_lower]

theorem c1_x86_64_flag_order_witness :
    (let cc : CompileConfig :=
      ⟨"cc1", [⟨⟨"llvm-cpu"⟩, ⟨"x86_64", "CASCADELAKE"⟩, TargetABI.LINUX_GNU⟩],
        ["-e1", "-e2"], []⟩
    build_module_compile_rule ⟨"tn", "imported.mlir", []⟩
        ⟨⟨"m1", "n1", .EXPORTED_TF, "main"⟩, ⟨"tosa"⟩⟩ cc "out.vmfb" =
      .ok { target_name := "iree-module-" ++ "m1" ++ "-" ++ cc.id,
            output_module_path := "out.vmfb",
            cmake_rules := [CMakeRule.bytecodeModule
              ("iree-module-" ++ "m1" ++ "-" ++ cc.id) "imported.mlir" "out.vmfb"
              (["--iree-hal-target-backends=" ++ "llvm-cpu",
                "--iree-input-type=tosa",
                "--iree-llvm-target-triple=x86_64-unknown-linux-gnu",
                "--iree-llvm-target-cpu=cascadelake"] ++ cc.extra_flags)] }) :=
  c1_x86_64_flag_order ⟨"tn", "imported.mlir", []⟩
    ⟨⟨"m1", "n1", .EXPORTED_TF, "main"⟩, ⟨"tosa"⟩⟩ _ "out.vmfb" _ rfl rfl rfl rfl

/-- C5: for an already-in-dialect (Linalg) model, `build_model_import_rule`
fails exactly when the source rule's file path differs from the requested
output path; on equality it returns an import rule reusing the source rule's
target name with no underlying cmake rules. -/
theorem c5_linalg_path_check (pkg : String) (mr : ModelRule)
    (im : ImportedModel) (out : String)
    (hsrc : im.model.source_type = .EXPORTED_LINALG_MLIR) :
    (mr.file_path ≠ out →
      ∃ msg, build_model_import_rule pkg mr im out = .error msg) ∧
    (mr.file_path = out →
      build_model_import_rule pkg mr im out =
        .ok { target_name := mr.target_name, output_file_path := out,
              cmake_rules := [] }) := by
  constructor
  · intro hne
    simp [build_model_import_rule, hsrc, hne]
  · intro heq
    simp [build_model_import_rule, hsrc, heq]

theorem c5_linalg_path_check_witness :
    ((⟨⟨"m", "n", .EXPORTED_LINALG_MLIR, "f"⟩, ⟨"linalg"⟩⟩ :
        ImportedModel).model.source_type = .EXPORTED_LINALG_MLIR) ∧
    ((("a" : String) ≠ "b" →
      ∃ msg, build_model_import_rule "p" ⟨"tn", "a"⟩
        ⟨⟨"m", "n", .EXPORTED_LINALG_MLIR, "f"⟩, ⟨"linalg"⟩⟩ "b" = .error msg) ∧
    (("a" : String) = "b" →
      build_model_import_rule "p" ⟨"tn", "a"⟩
        ⟨⟨"m", "n", .EXPORTED_LINALG_MLIR, "f"⟩, ⟨"linalg"⟩⟩ "b" =
        .ok { target_name := "tn", output_file_path := "b", cmake_rules := [] })) :=
  ⟨rfl, c5_linalg_path_check "p" ⟨"tn", "a"⟩
    ⟨⟨"m", "n", .EXPORTED_LINALG_MLIR, "f"⟩, ⟨"linalg"⟩⟩ "b" rfl⟩

/-- C6: a compile config whose target list has length 0 or ≥ 2 always makes
flag resolution fail, whatever its other fields. -/
theorem c6_single_target_required (cc : CompileConfig) (dialect : String)
    (h : cc.compile_targets.length ≠ 1) :
    ∃ msg, generate_compile_flags cc dialect = .error msg := by
  rcases hcc : cc.compile_targets with - | ⟨t, - | ⟨t2, rest⟩⟩
  · simp [generate_compile_flags, hcc]
  · exact absurd (by simp [hcc] : cc.compile_targets.length = 1) h
  · simp [generate_compile_flags, hcc]

theorem c6_single_target_required_witness :
    ((⟨"cc0", [], [], []⟩ : CompileConfig).compile_targets.length ≠ 1) ∧
    (∃ msg, generate_compile_flags ⟨"cc0", [], [], []⟩ "tosa" = .error msg) :=
  ⟨by decide, c6_single_target_required ⟨"cc0", [], [], []⟩ "tosa" (by decide)⟩

/-- C7: with exactly one compile target of any supported architecture, flag
resolution fails only in the cuda ∧ abi ≠ LINUX_GNU case (for every other
supported architecture the ABI is unconstrained); on success the flag list is
non-empty and the architecture-specific part is empty exactly for vmvx. -/
theorem c7_supported_architectures_total (cc : CompileConfig)
    (t : CompileTarget) (dialect : String)
    (hts : cc.compile_targets = [t])
    (hmem : t.target_architecture.architecture ∈ supported_architectures) :
    ((t.target_architecture.architecture = "cuda" ∧
        t.target_abi ≠ TargetABI.LINUX_GNU) →
      ∃ msg, generate_compile_flags cc dialect = .error msg) ∧
    ((t.target_architecture.architecture = "cuda" →
        t.target_abi = TargetABI.LINUX_GNU) →
      ∃ flags, generate_compile_flags cc dialect = .ok flags ∧ flags ≠ [] ∧
        (generate_compile_target_flags t = .ok [] ↔
          t.target_architecture.architecture = "vmvx")) := by
  simp only [supported_architectures, List.mem_cons, List.not_mem_nil,
    or_false] at hmem
  rcases hmem with h | h | h | h | h | h | h | h
  all_goals constructor
  all_goals
    first
    | (intro hc
       rw [h] at hc
       exact absurd hc.1 (by decide))
    | (intro hc
       simp [generate_compile_flags, generate_compile_target_flags, hts, h,
         hc.2]
       done)
    | (intro hab
       simp [generate_compile_flags, generate_compile_target_flags, hts, h,
         hab h]
       done)
    | (intro hab
       simp [generate_compile_flags, generate_compile_target_flags, hts, h]
       done)

theorem c7_supported_architectures_total_witness :
    ((⟨"c", [⟨⟨"cuda"⟩, ⟨"cuda", ""⟩, TargetABI.LINUX_GNU⟩], [], []⟩ :
        CompileConfig).compile_targets =
      [⟨⟨"cuda"⟩, ⟨"cuda", ""⟩, TargetABI.LINUX_GNU⟩]) ∧
    ((⟨⟨"cuda"⟩, ⟨"cuda", ""⟩, TargetABI.LINUX_GNU⟩ :
        CompileTarget).target_architecture.architecture ∈
      supported_architectures) ∧
    (((⟨⟨"cuda"⟩, ⟨"cuda", ""⟩, TargetABI.LINUX_GNU⟩ :
        CompileTarget).target_architecture.architecture = "cuda" ∧
        (⟨⟨"cuda"⟩, ⟨"cuda", ""⟩, TargetABI.LINUX_GNU⟩ :
          CompileTarget).target_abi ≠ TargetABI.LINUX_GNU →
      ∃ msg, generate_compile_flags
        ⟨"c", [⟨⟨"cuda"⟩, ⟨"cuda", ""⟩, TargetABI.LINUX_GNU⟩], [], []⟩ "tosa" =
          .error msg) ∧
    (((⟨⟨"cuda"⟩, ⟨"cuda", ""⟩, TargetABI.LINUX_GNU⟩ :
        CompileTarget).target_architecture.architecture = "cuda" →
        (⟨⟨"cuda"⟩, ⟨"cuda", ""⟩, TargetABI.LINUX_GNU⟩ :
          CompileTarget).target_abi = TargetABI.LINUX_GNU) →
      ∃ flags, generate_compile_flags
        ⟨"c", [⟨⟨"cuda"⟩, ⟨"cuda", ""⟩, TargetABI.LINUX_GNU⟩], [], []⟩ "tosa" =
          .ok flags ∧ flags ≠ [] ∧
        (generate_compile_target_flags
            ⟨⟨"cuda"⟩, ⟨"cuda", ""⟩, TargetABI.LINUX_GNU⟩ = .ok [] ↔
          (⟨⟨"cuda"⟩, ⟨"cuda", ""⟩, TargetABI.LINUX_GNU⟩ :
            CompileTarget).target_architecture.architecture = "vmvx"))) :=
  ⟨rfl, by decide,
    c7_supported_architectures_total
      ⟨"c", [⟨⟨"cuda"⟩, ⟨"cuda", ""⟩, TargetABI.LINUX_GNU⟩], [], []⟩
      ⟨⟨"cuda"⟩, ⟨"cuda", ""⟩, TargetABI.LINUX_GNU⟩ "tosa" rfl (by decide)⟩

end Iree

namespace IreeBench

/-- C10: for any module function list and any requested entry function that
passes validation, the benchmark command's `--function=` flag carries the
first non-`"__init"` function name (not the requested one); the requested
name only has to pass validation and is echoed as the result's
`entry_function`: the argument list is independent of which valid entry
function was requested. -/
theorem c10_function_flag_ignores_entry (function_names : List String)
    (e : String) (inputs : List String) (kwargs : List (String × String))
    (he : e ∈ nonInitFuncs function_names) :
    ∃ f0 rest, nonInitFuncs function_names = f0 :: rest ∧
      benchmark_module_cmd function_names (some e) inputs kwargs =
        .ok { args := [benchmark_exe, "--function=" ++ f0]
                ++ kwargs.map (fun kv => "--" ++ kv.1 ++ "=" ++ kv.2)
                ++ inputs.map (fun inp => "--input=" ++ inp),
              entry_function := e } ∧
      (∀ e', e' ∈ nonInitFuncs function_names →
        (benchmark_module_cmd function_names (some e') inputs kwargs).map
            BenchmarkInvocation.args =
          (benchmark_module_cmd function_names (some e) inputs kwargs).map
            BenchmarkInvocation.args) := by
  rcases hf : nonInitFuncs function_names with - | ⟨f0, rest⟩
  · rw [hf] at he
    exact absurd he (List.not_mem_nil e)
  · rw [hf] at he
    refine ⟨f0, rest, rfl, ?_, ?_⟩
    · simp [benchmark_module_cmd, hf, he]
    · intro e' he'
      simp [benchmark_module_cmd, hf, he, he', Except.map]

theorem c10_function_flag_ignores_entry_witness :
    ("fb" ∈ nonInitFuncs ["__init", "fa", "fb"]) ∧
    (∃ f0 rest, nonInitFuncs ["__init", "fa", "fb"] =
        f0 :: rest ∧
      benchmark_module_cmd ["__init", "fa", "fb"] (some "fb") ["1x2xf32=0"]
          [("device", "local-task")] =
        .ok { args := [benchmark_exe, "--function=" ++ f0]
                ++ [("device", "local-task")].map
                  (fun kv => "--" ++ kv.1 ++ "=" ++ kv.2)
                ++ ["1x2xf32=0"].map (fun inp => "--input=" ++ inp),
              entry_function := "fb" } ∧
      (∀ e', e' ∈ nonInitFuncs ["__init", "fa", "fb"] →
        (benchmark_module_cmd ["__init", "fa", "fb"] (some e') ["1x2xf32=0"]
            [("device", "local-task")]).map BenchmarkInvocation.args =
          (benchmark_module_cmd ["__init", "fa", "fb"] (some "fb") ["1x2xf32=0"]
            [("device", "local-task")]).map BenchmarkInvocation.args)) :=
  ⟨by decide, c10_function_flag_ignores_entry ["__init", "fa", "fb"] "fb"
    ["1x2xf32=0"] [("device", "local-task")] (by decide)⟩

end IreeBench
